import Mathlib

/-!
Verification of the request-lifecycle orchestrator of the Glass repository.

The development shallowly embeds the JavaScript source of `askService.js`
(screenshot queue, `sendMessage`, `_processStream`, `_isMultimodalError`,
`toggleAskButton`, `_formatConversationForPrompt`) and the relevant part of
`shortcutsService.js`.  JavaScript strings are modelled as Lean `String`
(with character-list helpers mirroring the JS string methods used by the
source), JS arrays as `List`, and the external collaborators (window pool,
repositories, provider gateway, `JSON.parse`) as explicit parameters so that
every definition is executable.
-/

namespace Glass

/-! ## JavaScript string helpers

The source uses `split('\n')`, `trim()`, `startsWith`, `substring`,
`includes` and `toLowerCase` on strings.  These are modelled by structural
recursion over the character list so that all definitions reduce in the
kernel. -/

/-- Model of JS `String.prototype.split` with a single-character separator:
`"".split(c)` is `[""]`, separators at the ends produce empty fragments. -/
def splitOnChar (c : Char) : List Char → List (List Char)
  | [] => [[]]
  | a :: rest =>
    let r := splitOnChar c rest
    if a = c then [] :: r
    else
      match r with
      | [] => [[a]]
      | h :: t => (a :: h) :: t

/-- Model of JS `String.prototype.trim`: drop whitespace from both ends. -/
def jsTrimChars (l : List Char) : List Char :=
  ((l.dropWhile Char.isWhitespace).reverse.dropWhile Char.isWhitespace).reverse

/-- Model of JS `trim()` on a Lean `String`. -/
def jsTrimStr (s : String) : String :=
  String.mk (jsTrimChars s.data)

/-- Model of JS `String.prototype.includes`: `containsSeq s pat` is true iff
`pat` occurs contiguously inside `s`. -/
def containsSeq : List Char → List Char → Bool
  | s, pat =>
    if pat.isPrefixOf s then true
    else
      match s with
      | [] => false
      | _ :: t => containsSeq t pat

/-- Model of JS `String.prototype.toLowerCase` (character-wise lowering). -/
def lowerChars (s : String) : List Char :=
  s.data.map Char.toLower

/-- Boolean string-prefix test used to state the monotonic-answer property. -/
def isPrefixStr (a b : String) : Bool :=
  a.data.isPrefixOf b.data

/-- Model of the JS negative-index `Array.prototype.slice (-n)`: keep the last
`n` elements (all of them when fewer than `n`). -/
def jsSliceLast (n : Nat) (l : List α) : List α :=
  l.drop (l.length - n)

/-! ## Screenshot queue (`askService.js` lines 101-236)

The module-level mutable `screenshotQueue` array is modelled by explicit
state passing: each operation takes the current queue and returns the new
one. -/

/-- Entry of the screenshot queue (`{ base64, width, height, timestamp }`). -/
structure Screenshot where
  base64 : String
  width : Option Nat
  height : Option Nat
  timestamp : Nat
deriving DecidableEq

/-- Source constant `MAX_SCREENSHOT_QUEUE_SIZE`. -/
def MAX_SCREENSHOT_QUEUE_SIZE : Nat := 10

/-- Shared enqueue step of `addScreenshotToQueue` and
`captureManualScreenshotToQueue`: `push` followed by
`slice(-MAX_SCREENSHOT_QUEUE_SIZE)` when the bound is exceeded. -/
def enqueueScreenshot (q : List Screenshot) (s : Screenshot) : List Screenshot :=
  let pushed := q ++ [s]
  if pushed.length > MAX_SCREENSHOT_QUEUE_SIZE then
    jsSliceLast MAX_SCREENSHOT_QUEUE_SIZE pushed
  else pushed

/-- Source `addScreenshotToQueue(screenshot)`: spreads the entry, stamps
`Date.now()` and applies the bounded push. -/
def addScreenshotToQueue (q : List Screenshot) (screenshot : Screenshot) (now : Nat) :
    List Screenshot :=
  enqueueScreenshot q { screenshot with timestamp := now }

/-- Queue effect of `captureManualScreenshotToQueue` once a screenshot has
been captured: the same bounded push. -/
def captureManualEnqueue (q : List Screenshot) (shot : Screenshot) : List Screenshot :=
  enqueueScreenshot q shot

/-- Source `getAndClearScreenshotQueue()`: returns `(copy of queue, empty queue)`. -/
def getAndClearScreenshotQueue (q : List Screenshot) : List Screenshot × List Screenshot :=
  (q, [])

/-- Source `hasQueuedScreenshots()`. -/
def hasQueuedScreenshots (q : List Screenshot) : Bool :=
  decide (q.length > 0)

/-- Source `clearScreenshotQueue()`. -/
def clearScreenshotQueue (_q : List Screenshot) : List Screenshot :=
  []

/-- Source `getScreenshotQueueSize()`. -/
def getScreenshotQueueSize (q : List Screenshot) : Nat :=
  q.length

/-- Folding a sequence of enqueue operations over the initially empty queue. -/
def enqueueAll (ss : List Screenshot) : List Screenshot :=
  ss.foldl enqueueScreenshot []

/-! ## Conversation formatting (`_formatConversationForPrompt`, lines 412-417) -/

/-- Source `_formatConversationForPrompt(conversationTexts)`; the argument is
`Option` to model a missing (`null`/`undefined`) JS array. -/
def formatConversationForPrompt (conversationTexts : Option (List String)) : String :=
  match conversationTexts with
  | none => "No conversation history available."
  | some l =>
    if l.length = 0 then "No conversation history available."
    else String.intercalate "\n" (jsSliceLast 30 l)

/-! ## Multimodal error classification (`_isMultimodalError`, lines 670-682) -/

/-- Source `_isMultimodalError(error)` applied to the error message text
(`error.message?.toLowerCase() || ''`; an absent message is modelled by the
empty string, which matches no pattern). -/
def isMultimodalError (msg : String) : Bool :=
  let errorMessage := lowerChars msg
  containsSeq errorMessage "vision".data ||
  containsSeq errorMessage "image".data ||
  containsSeq errorMessage "multimodal".data ||
  containsSeq errorMessage "unsupported".data ||
  containsSeq errorMessage "image_url".data ||
  containsSeq errorMessage "400".data ||
  containsSeq errorMessage "invalid".data ||
  containsSeq errorMessage "not supported".data

/-- List of the classifier's patterns, used to state the specification-side
characterisation of `MultimodalRejected`. -/
def multimodalPatterns : List String :=
  ["vision", "image", "multimodal", "unsupported", "image_url", "400", "invalid",
   "not supported"]

/-! ## Stream decoder (`_processStream`, lines 608-664)

One `reader.read()` result is either a text chunk or a failure (transport
error, or cancellation observed through `signal.aborted`); the list ending
models `done = true`.  `JSON.parse` plus the
`json.choices[0]?.delta?.content || ''` projection is an external
collaborator, modelled by a `parse` oracle: `none` means the frame payload
did not parse, `some tok` the (possibly empty) coalesced token. -/

inductive ReadEvent where
  | chunk (s : String)
  | failure (aborted : Bool) (msg : String)
deriving DecidableEq

/-- How the read loop of `_processStream` was exited. -/
inductive ExitKind where
  | sourceDone
  | sentinel
  | failed (aborted : Bool) (msg : String)
deriving DecidableEq

/-- Per-chunk line splitting of the source:
`chunk.split('\n').filter(line => line.trim() !== '')`. -/
def chunkLines (s : String) : List (List Char) :=
  (splitOnChar '\n' s.data).filter (fun line => !(jsTrimChars line).isEmpty)

/-- Inner loop of `_processStream` over the significant lines of one chunk.
Returns the accumulated response, the successive values published for
`currentResponse`, and whether the `[DONE]` sentinel ended decoding. -/
def processLines (parse : List Char → Option String) :
    List (List Char) → String → String × List String × Bool
  | [], full => (full, [], false)
  | line :: rest, full =>
    if "data: ".data.isPrefixOf line then
      let data := line.drop 6
      if data = "[DONE]".data then (full, [], true)
      else
        match parse data with
        | none => processLines parse rest full
        | some token =>
          if token ≠ "" then
            let full' := full ++ token
            let out := processLines parse rest full'
            (out.1, full' :: out.2.1, out.2.2)
          else processLines parse rest full
    else processLines parse rest full

/-- Outer `while (true)` read loop of `_processStream`, starting from
`fullResponse = ''` at the given accumulated value. -/
def processEvents (parse : List Char → Option String) :
    List ReadEvent → String → String × List String × ExitKind
  | [], full => (full, [], ExitKind.sourceDone)
  | ReadEvent.chunk s :: rest, full =>
    let out := processLines parse (chunkLines s) full
    if out.2.2 then (out.1, out.2.1, ExitKind.sentinel)
    else
      let outR := processEvents parse rest out.1
      (outR.1, out.2.1 ++ outR.2.1, outR.2.2)
  | ReadEvent.failure ab m :: _, full => (full, [], ExitKind.failed ab m)

/-- Final accumulated `fullResponse` of one stream. -/
def streamFinal (parse : List Char → Option String) (events : List ReadEvent) : String :=
  (processEvents parse events "").1

/-- Values assigned to `currentResponse` and broadcast during the loop. -/
def streamPubs (parse : List Char → Option String) (events : List ReadEvent) : List String :=
  (processEvents parse events "").2.1

/-- Exit kind of the read loop. -/
def streamExit (parse : List Char → Option String) (events : List ReadEvent) : ExitKind :=
  (processEvents parse events "").2.2

/-- All `currentResponse` values published during one call of
`_processStream`: the entry broadcast (with the caller's current value),
one broadcast per appended token, and the final broadcast of the `finally`
block. -/
def publishedResponses (parse : List Char → Option String) (events : List ReadEvent)
    (init : String) : List String :=
  init :: streamPubs parse events ++ [streamFinal parse events]

/-- Assistant message persisted by the `finally` block of `_processStream`
(`if (fullResponse) await askRepository.addAiMessage(...)`). -/
def streamPersisted (parse : List Char → Option String) (events : List ReadEvent) :
    Option String :=
  if streamFinal parse events = "" then none else some (streamFinal parse events)

/-! ## Orchestrator state and observable actions (`class AskService`) -/

/-- The `this.state` object of `AskService`. -/
structure AskState where
  isVisible : Bool
  isLoading : Bool
  isStreaming : Bool
  currentQuestion : String
  currentResponse : String
  showTextInput : Bool
deriving DecidableEq

/-- Constructor state of `AskService`. -/
def initialAskState : AskState :=
  { isVisible := false, isLoading := false, isStreaming := false,
    currentQuestion := "", currentResponse := "", showTextInput := true }

/-- Service-level state: the `abortController` field (presence only) plus
`this.state`. -/
structure ServiceState where
  hasAbortController : Bool
  state : AskState
deriving DecidableEq

/-- Provider payload as assembled by `sendMessage`: the system prompt, the
user request text, and the attached `image_url` entries. -/
structure Payload where
  systemPrompt : String
  userText : String
  images : List String
deriving DecidableEq

/-- Externally observable actions of a `sendMessage` run, in program order. -/
inductive Action where
  | emitVisibility (name : String) (visible : Bool)
  | broadcastState (st : AskState)
  | abortPrev (reason : String)
  | persistUser (sessionId : Nat) (content : String)
  | openStream (p : Payload)
  | sendStreamError (msg : String)
  | persistAssistant (sessionId : Nat) (content : String)
deriving DecidableEq

/-- State update (`this.state = { ...this.state, isLoading: true, ... }`) at
the top of `sendMessage`: the submission-time reset. -/
def loadingState (st : AskState) (userPrompt : String) : AskState :=
  { st with isLoading := true, isStreaming := false, currentQuestion := userPrompt,
            currentResponse := "", showTextInput := false }

/-- Full effect of `_processStream(reader, askWin, sessionId, signal)` on the
service state, together with the emitted actions. -/
def processStream (parse : List Char → Option String) (events : List ReadEvent)
    (sessionId : Nat) (st : AskState) : AskState × List Action :=
  let stS := { st with isLoading := false, isStreaming := true }
  let f := streamFinal parse events
  let stF := { stS with isStreaming := false, currentResponse := f }
  let errActs : List Action :=
    match streamExit parse events with
    | ExitKind.failed false m => [Action.sendStreamError m]
    | _ => []
  (stF,
    Action.broadcastState stS ::
      (streamPubs parse events).map
        (fun r => Action.broadcastState { stS with currentResponse := r })
      ++ errActs
      ++ [Action.broadcastState stF]
      ++ (match streamPersisted parse events with
          | some c => [Action.persistAssistant sessionId c]
          | none => []))

/-! ## `sendMessage` (lines 424-597) -/

/-- Result of one `streamingLLM.streamChat(messages)` call: a readable SSE
body, or a thrown error carrying a message. -/
inductive OpenResult where
  | ok (events : List ReadEvent)
  | err (msg : String)
deriving DecidableEq

/-- Environment of one `sendMessage` run: behaviour of every external
collaborator touched by the source. -/
structure SendEnv where
  sessionId : Nat
  modelOk : Bool
  queued : List Screenshot
  captureResult : Option Screenshot
  promptScreenshot : String → String
  promptPlain : String → String
  askWin1 : Bool
  askWin2 : Bool
  askWinCatch : Bool
  open1 : OpenResult
  open2 : OpenResult
  parse : List Char → Option String

/-- The `screenshotsToAnalyze` value: queued screenshots when present,
otherwise the fresh capture (or nothing when the capture failed). -/
def screenshotsToAnalyze (env : SendEnv) : List Screenshot :=
  if env.queued.length > 0 then env.queued
  else
    match env.captureResult with
    | some s => [s]
    | none => []

/-- The `usingQueuedScreenshots` flag. -/
def usingQueuedScreenshots (env : SendEnv) : Bool :=
  decide (env.queued.length > 0)

/-- Default user text substituted when queued screenshots are analysed with an
empty prompt (the source's multi-line template; apostrophes elided). -/
def defaultScreenshotPromptText (n : Nat) : String :=
  "Analyze the following " ++ toString n ++ " screenshot(s). Identify the type of content:\n- If it is an MCQ (Multiple Choice Question), provide the correct answer with a clear explanation.\n- If it is a Coding question/problem, provide the complete solution code with explanation.\n- If it is neither, describe what you see and provide relevant insights."

/-- Payload of the first `streamChat` call, as assembled by `sendMessage`:
system prompt selection, user-text defaulting, and one `image_url` part per
screenshot with a truthy `base64`. -/
def payloadFor (userPrompt : String) (hist : Option (List String)) (env : SendEnv) : Payload :=
  let ss := screenshotsToAnalyze env
  let conversationHistory := formatConversationForPrompt hist
  let systemPrompt :=
    if usingQueuedScreenshots env && !ss.isEmpty then
      env.promptScreenshot conversationHistory
    else env.promptPlain conversationHistory
  let trimmed := jsTrimStr userPrompt
  let userText :=
    if usingQueuedScreenshots env && !ss.isEmpty && trimmed = "" then
      defaultScreenshotPromptText ss.length
    else trimmed
  { systemPrompt := systemPrompt, userText := userText,
    images := (ss.filter (fun s => s.base64 ≠ "")).map (fun s => s.base64) }

/-- Return value of `sendMessage`. -/
inductive SendResult where
  | success
  | failure (msg : String)
deriving DecidableEq

/-- Outcome of a `sendMessage` run: final service state, the ordered action
trace, the payload of every `streamChat` attempt, and the returned result
(`.success` for `{success: true}`, `.failure e` for
`{success: false, error: e}`). -/
structure SendOutcome where
  svc : ServiceState
  trace : List Action
  attempts : List Payload
  result : SendResult

/-- The outer `catch` block of `sendMessage`: resets `loading`/`streaming`,
restores the composer, broadcasts, and reports the stream error to the ask
window when available. -/
def catchExit (winOk : Bool) (st1 : AskState) (tr : List Action) (atts : List Payload)
    (e : String) : List Action × List Payload × AskState × SendResult :=
  let stE := { st1 with isLoading := false, isStreaming := false, showTextInput := true }
  (tr ++ [Action.broadcastState stE] ++ (if winOk then [Action.sendStreamError e] else []),
   atts, stE, SendResult.failure e)

/-- Successful `open` path: hand the reader to `_processStream` when the ask
window is available, otherwise return the window-unavailable failure. -/
def streamPath (winOk : Bool) (parse : List Char → Option String) (events : List ReadEvent)
    (sessionId : Nat) (st1 : AskState) (tr : List Action) (atts : List Payload) :
    List Action × List Payload × AskState × SendResult :=
  if winOk then
    let r := processStream parse events sessionId st1
    (tr ++ r.2, atts, r.1, SendResult.success)
  else (tr, atts, st1, SendResult.failure "Ask window is not available.")

/-- Body of `sendMessage` after the state reset and the abort of the previous
controller: persistence of the user turn, credential check, payload assembly,
the first `streamChat` attempt, and the one-shot text-only fallback. -/
def sendMessageRest (st1 : AskState) (userPrompt : String) (hist : Option (List String))
    (env : SendEnv) : List Action × List Payload × AskState × SendResult :=
  let tr0 : List Action := [Action.persistUser env.sessionId (jsTrimStr userPrompt)]
  if env.modelOk then
    let p1 := payloadFor userPrompt hist env
    let tr1 := tr0 ++ [Action.openStream p1]
    match env.open1 with
    | OpenResult.ok events =>
      streamPath env.askWin1 env.parse events env.sessionId st1 tr1 [p1]
    | OpenResult.err e =>
      if decide ((screenshotsToAnalyze env).length > 0) && isMultimodalError e then
        let p2 : Payload := { p1 with images := [] }
        let tr2 := tr1 ++ [Action.openStream p2]
        match env.open2 with
        | OpenResult.ok events =>
          streamPath env.askWin2 env.parse events env.sessionId st1 tr2 [p1, p2]
        | OpenResult.err e2 => catchExit env.askWinCatch st1 tr2 [p1, p2] e2
      else catchExit env.askWinCatch st1 tr1 [p1] e
  else catchExit env.askWinCatch st1 tr0 [] "AI model or API key not configured."

/-- Source `sendMessage(userPrompt, conversationHistoryRaw)`: requests window
visibility, publishes the loading state, aborts the previous controller when
present, installs a fresh one, then runs the request body. -/
def sendMessage (svc : ServiceState) (userPrompt : String) (hist : Option (List String))
    (env : SendEnv) : SendOutcome :=
  let st1 := loadingState svc.state userPrompt
  let rest := sendMessageRest st1 userPrompt hist env
  { svc := { hasAbortController := true, state := rest.2.2.1 },
    trace :=
      Action.emitVisibility "ask" true :: Action.broadcastState st1 ::
        ((if svc.hasAbortController then [Action.abortPrev "New request received."] else [])
          ++ rest.1),
    attempts := rest.2.1,
    result := rest.2.2.2 }

/-! ## `toggleAskButton` (lines 347-382) -/

/-- Window-pool view needed by `toggleAskButton`. -/
structure ToggleEnv where
  askWinExists : Bool
  askWinVisible : Bool
deriving DecidableEq

/-- Observable effects of one `toggleAskButton` call. -/
inductive ToggleAction where
  | callSendMessage (prompt : String)
  | emitVisibility (visible : Bool)
  | broadcastState (st : AskState)
deriving DecidableEq

/-- Source `toggleAskButton(inputScreenOnly)`: drops the call while the LLM is
busy, otherwise submits screen-only, flips the composer, or toggles window
visibility. -/
def toggleAskButton (st : AskState) (inputScreenOnly : Bool) (env : ToggleEnv) :
    AskState × List ToggleAction :=
  if st.isLoading || st.isStreaming then (st, [])
  else
    let winVisible := env.askWinExists && env.askWinVisible
    if inputScreenOnly && st.showTextInput && winVisible then
      (st, [ToggleAction.callSendMessage ""])
    else
      let hasContent := st.isLoading || st.isStreaming || st.currentResponse ≠ ""
      if winVisible && hasContent then
        let st' := { st with showTextInput := !st.showTextInput }
        (st', [ToggleAction.broadcastState st'])
      else
        if winVisible then
          ({ st with isVisible := false }, [ToggleAction.emitVisibility false])
        else
          let st' := { st with isVisible := true, showTextInput := true }
          (st', [ToggleAction.emitVisibility true, ToggleAction.broadcastState st'])

/-! ## Concrete fixtures used by witnesses and counterexamples -/

/-- Boolean prefix-chain predicate over a list of published strings: every
element is a prefix of the next. -/
def prefixChain : List String → Bool
  | [] => true
  | [_] => true
  | a :: b :: rest => isPrefixStr a b && prefixChain (b :: rest)

/-- Last element of a list, with a default for the empty list (structural
version used by the stream lemmas). -/
def lastD : List String → String → String
  | [], d => d
  | a :: t, _ => lastD t a

/-- Recogniser for the abort action in a trace. -/
def isAbortAct : Action → Bool
  | Action.abortPrev _ => true
  | _ => false

/-- Recogniser for a broadcast publishing `loading = true`. -/
def isLoadingBroadcast : Action → Bool
  | Action.broadcastState st => st.isLoading
  | _ => false

/-- Sample screenshot entry. -/
def wShot (i : Nat) : Screenshot :=
  { base64 := toString i, width := none, height := none, timestamp := i }

/-- Sample `JSON.parse` oracle: two well-formed frames, everything else
malformed. -/
def wParse : List Char → Option String
  | l => if l = "j1".data then some "He" else if l = "j2".data then some "llo" else none

/-- Sample environment: one queued screenshot, both provider calls rejected
with vision errors. -/
def wEnv : SendEnv :=
  { sessionId := 1, modelOk := true, queued := [wShot 1], captureResult := none,
    promptScreenshot := fun h => "SP " ++ h, promptPlain := fun h => "PP " ++ h,
    askWin1 := true, askWin2 := true, askWinCatch := true,
    open1 := OpenResult.err "vision unsupported",
    open2 := OpenResult.err "vision again",
    parse := wParse }

/-- Sample service state with a previous request still streaming. -/
def wSvc : ServiceState :=
  { hasAbortController := true, state := { initialAskState with isStreaming := true } }

/-- A full queue of ten sample screenshots. -/
def wFullQueue : List Screenshot :=
  (List.range 10).map wShot

/-! # Helper lemmas -/

theorem containsSeq_spec (s pat : List Char) :
    containsSeq s pat = true ↔ pat <:+: s := by
  induction s with
  | nil =>
    rw [containsSeq]
    by_cases h : pat.isPrefixOf ([] : List Char)
    · simp only [h, if_pos]
      rw [ List.isPrefixOf_iff_prefix, List.prefix_nil] at h
      simp [h]
    · simp only [h]
      rw [ List.isPrefixOf_iff_prefix, List.prefix_nil] at h
      simp [h]
  | cons c t ih =>
    rw [containsSeq]
    by_cases h : pat.isPrefixOf (c :: t)
    · rw [ List.isPrefixOf_iff_prefix] at h
      simp [h, List.infix_cons_iff, h]
    · rw [ List.isPrefixOf_iff_prefix] at h
      simp only [ List.isPrefixOf_iff_prefix] at *
      simp [h, ih, List.infix_cons_iff]

theorem jsSliceLast_suffix (n : Nat) (l : List α) : jsSliceLast n l <:+ l :=
  List.drop_suffix _ _

theorem jsSliceLast_length (n : Nat) (l : List α) :
    (jsSliceLast n l).length = min n l.length := by
  simp only [jsSliceLast, List.length_drop]
  omega

theorem enqueueScreenshot_full (q : List Screenshot) (s : Screenshot)
    (h : q.length = MAX_SCREENSHOT_QUEUE_SIZE) :
    enqueueScreenshot q s = q.drop 1 ++ [s] := by
  simp only [enqueueScreenshot, jsSliceLast, MAX_SCREENSHOT_QUEUE_SIZE] at *
  rw [if_pos (by simp [List.length_append, h])]
  have hlen : (q ++ [s]).length - 10 = 1 := by simp [List.length_append, h]
  rw [hlen, List.drop_append_of_le_length (by omega)]

theorem enqueueScreenshot_jsSliceLast (l : List Screenshot) (s : Screenshot) :
    enqueueScreenshot (jsSliceLast MAX_SCREENSHOT_QUEUE_SIZE l) s
      = jsSliceLast MAX_SCREENSHOT_QUEUE_SIZE (l ++ [s]) := by
  simp only [enqueueScreenshot, jsSliceLast, MAX_SCREENSHOT_QUEUE_SIZE, List.length_append,
    List.length_drop, List.length_cons, List.length_nil]
  by_cases h : l.length ≤ 9
  · have h1 : l.length - 10 = 0 := by omega
    rw [h1, List.drop_zero]
    rw [if_neg (by omega)]
    have h2 : l.length + (0 + 1) - 10 = 0 := by omega
    rw [h2, List.drop_zero]
  · rw [if_pos (by omega)]
    rw [List.drop_append_of_le_length (by simp only [List.length_drop]; omega),
      List.drop_drop,
      List.drop_append_of_le_length (by omega)]
    congr 2
    omega

theorem enqueueAll_sliceLast (ss : List Screenshot) :
    enqueueAll ss = jsSliceLast MAX_SCREENSHOT_QUEUE_SIZE ss := by
  have key : ∀ (ss l : List Screenshot),
      ss.foldl enqueueScreenshot (jsSliceLast MAX_SCREENSHOT_QUEUE_SIZE l)
        = jsSliceLast MAX_SCREENSHOT_QUEUE_SIZE (l ++ ss) := by
    intro ss
    induction ss with
    | nil => intro l; simp
    | cons s rest ih =>
      intro l
      rw [List.foldl_cons, enqueueScreenshot_jsSliceLast, ih (l ++ [s])]
      simp
  have := key ss []
  simpa [enqueueAll, jsSliceLast] using this

/-! # Claims -/

/-- C3: for every sequence of enqueue operations the screenshot queue never
holds more than 10 entries, always equals the 10 most-recently-enqueued
entries in insertion order (all of them when fewer than 10), and enqueueing
into a full queue drops exactly the oldest entry; both enqueue entry points
reduce to the same bounded push. -/
theorem C3_queue_capacity :
    ∀ ss : List Screenshot,
      (enqueueAll ss).length ≤ 10
      ∧ enqueueAll ss = jsSliceLast 10 ss
      ∧ (∀ (q : List Screenshot) (s : Screenshot), q.length = 10 →
          enqueueScreenshot q s = q.drop 1 ++ [s])
      ∧ (∀ (q : List Screenshot) (s : Screenshot) (now : Nat),
          addScreenshotToQueue q s now = enqueueScreenshot q { s with timestamp := now })
      ∧ (∀ (q : List Screenshot) (s : Screenshot),
          captureManualEnqueue q s = enqueueScreenshot q s) := by
  intro ss
  refine ⟨?_, ?_, ?_, fun q s now => rfl, fun q s => rfl⟩
  · rw [enqueueAll_sliceLast, jsSliceLast_length]
    simp only [MAX_SCREENSHOT_QUEUE_SIZE]
    omega
  · exact enqueueAll_sliceLast ss
  · exact fun q s h => enqueueScreenshot_full q s h

/-- C3 witness: a concrete eleventh enqueue into a full queue `[s0..s9]`
yields `[s1..s10]`. -/
theorem C3_queue_capacity_witness :
    enqueueScreenshot wFullQueue (wShot 10) = wFullQueue.drop 1 ++ [wShot 10]
    ∧ (enqueueAll ((List.range 11).map wShot)).length ≤ 10 :=
  ⟨(C3_queue_capacity []).2.2.1 wFullQueue (wShot 10) (by decide),
   (C3_queue_capacity ((List.range 11).map wShot)).1⟩

/-- C4: draining returns the entire queue content in insertion order and
leaves the queue empty in one step; size and emptiness observers report an
empty queue immediately afterwards. -/
theorem C4_drain_all :
    ∀ q : List Screenshot,
      (getAndClearScreenshotQueue q).1 = q
      ∧ (getAndClearScreenshotQueue q).2 = []
      ∧ getScreenshotQueueSize (getAndClearScreenshotQueue q).2 = 0
      ∧ hasQueuedScreenshots (getAndClearScreenshotQueue q).2 = false :=
  fun _ => ⟨rfl, rfl, rfl, rfl⟩

/-- C6: an error is classified as a multimodal rejection exactly when its
lowercased message contains one of the eight catalogued substrings. -/
theorem C6_multimodal_classification :
    ∀ msg : String,
      isMultimodalError msg = true
        ↔ ∃ p ∈ multimodalPatterns, p.data <:+: lowerChars msg := by
  intro msg
  simp only [isMultimodalError, Bool.or_eq_true, containsSeq_spec]
  constructor
  · intro h
    rcases h with ((((((h | h) | h) | h) | h) | h) | h) | h
    exacts [⟨"vision", by simp [multimodalPatterns], h⟩,
      ⟨"image", by simp [multimodalPatterns], h⟩,
      ⟨"multimodal", by simp [multimodalPatterns], h⟩,
      ⟨"unsupported", by simp [multimodalPatterns], h⟩,
      ⟨"image_url", by simp [multimodalPatterns], h⟩,
      ⟨"400", by simp [multimodalPatterns], h⟩,
      ⟨"invalid", by simp [multimodalPatterns], h⟩,
      ⟨"not supported", by simp [multimodalPatterns], h⟩]
  · rintro ⟨p, hp, h⟩
    have hp' : p = "vision" ∨ p = "image" ∨ p = "multimodal" ∨ p = "unsupported" ∨
        p = "image_url" ∨ p = "400" ∨ p = "invalid" ∨ p = "not supported" := by
      simpa [multimodalPatterns] using hp
    rcases hp' with rfl | rfl | rfl | rfl | rfl | rfl | rfl | rfl
    exacts [Or.inl (Or.inl (Or.inl (Or.inl (Or.inl (Or.inl (Or.inl h)))))),
      Or.inl (Or.inl (Or.inl (Or.inl (Or.inl (Or.inl (Or.inr h)))))),
      Or.inl (Or.inl (Or.inl (Or.inl (Or.inl (Or.inr h))))),
      Or.inl (Or.inl (Or.inl (Or.inl (Or.inr h)))),
      Or.inl (Or.inl (Or.inl (Or.inr h))),
      Or.inl (Or.inl (Or.inr h)),
      Or.inl (Or.inr h),
      Or.inr h]

/-- C10: the prompt context keeps only the most recent 30 history entries
(a suffix of the input of length `min 30 n`, joined by newlines); a missing
or empty history yields the fixed fallback string. -/
theorem C10_history_window :
    formatConversationForPrompt none = "No conversation history available."
    ∧ formatConversationForPrompt (some []) = "No conversation history available."
    ∧ ∀ l : List String, l ≠ [] →
        formatConversationForPrompt (some l) = String.intercalate "\n" (jsSliceLast 30 l)
        ∧ jsSliceLast 30 l <:+ l
        ∧ (jsSliceLast 30 l).length = min 30 l.length := by
  refine ⟨rfl, rfl, fun l hl => ⟨?_, jsSliceLast_suffix 30 l, jsSliceLast_length 30 l⟩⟩
  simp only [formatConversationForPrompt]
  rw [if_neg]
  simpa [List.length_eq_zero] using hl

/-- C10 witness: the window applied to a concrete two-entry history. -/
theorem C10_history_window_witness :
    formatConversationForPrompt (some ["a", "b"])
        = String.intercalate "\n" (jsSliceLast 30 ["a", "b"])
    ∧ jsSliceLast 30 ["a", "b"] <:+ ["a", "b"]
    ∧ (jsSliceLast 30 ["a", "b"]).length = min 30 (["a", "b"] : List String).length :=
  C10_history_window.2.2 ["a", "b"] (by decide)

theorem isPrefixStr_append (a t : String) : isPrefixStr a (a ++ t) = true := by
  rw [isPrefixStr, List.isPrefixOf_iff_prefix, String.data_append]
  exact List.prefix_append _ _

theorem isPrefixStr_refl (a : String) : isPrefixStr a a = true := by
  rw [isPrefixStr, List.isPrefixOf_iff_prefix]

theorem lastD_append (l1 l2 : List String) (d : String) :
    lastD (l1 ++ l2) d = lastD l2 (lastD l1 d) := by
  induction l1 generalizing d with
  | nil => rfl
  | cons a t ih => exact ih a

theorem prefixChain_append :
    ∀ (pubs : List String) (full f : String) (pubs2 : List String),
      prefixChain (full :: pubs) = true → lastD pubs full = f →
      prefixChain (f :: pubs2) = true →
      prefixChain (full :: (pubs ++ pubs2)) = true := by
  intro pubs
  induction pubs with
  | nil =>
    intro full f pubs2 h1 h2 h3
    have h2' : full = f := h2
    subst h2'
    simpa using h3
  | cons a rest ih =>
    intro full f pubs2 h1 h2 h3
    simp only [List.cons_append]
    simp only [prefixChain, Bool.and_eq_true] at h1 ⊢
    exact ⟨h1.1, ih a f pubs2 h1.2 h2 h3⟩

theorem processLines_chain (parse : List Char → Option String) :
    ∀ (lines : List (List Char)) (full : String),
      prefixChain (full :: (processLines parse lines full).2.1) = true
      ∧ lastD ((processLines parse lines full).2.1) full
          = (processLines parse lines full).1 := by
  intro lines
  induction lines with
  | nil => intro full; exact ⟨rfl, rfl⟩
  | cons line rest ih =>
    intro full
    simp only [processLines]
    split
    · split
      · exact ⟨rfl, rfl⟩
      · split
        · exact ih full
        · split
          · refine ⟨?_, ?_⟩
            · simp only [prefixChain, Bool.and_eq_true]
              exact ⟨isPrefixStr_append _ _, (ih _).1⟩
            · exact (ih _).2
          · exact ih full
    · exact ih full

theorem processEvents_chain (parse : List Char → Option String) :
    ∀ (events : List ReadEvent) (full : String),
      prefixChain (full :: (processEvents parse events full).2.1) = true
      ∧ lastD ((processEvents parse events full).2.1) full
          = (processEvents parse events full).1 := by
  intro events
  induction events with
  | nil => intro full; exact ⟨rfl, rfl⟩
  | cons ev rest ih =>
    intro full
    cases ev with
    | chunk s =>
      simp only [processEvents]
      split
      · exact processLines_chain parse (chunkLines s) full
      · refine ⟨?_, ?_⟩
        · exact prefixChain_append _ _ _ _ (processLines_chain parse (chunkLines s) full).1
            (processLines_chain parse (chunkLines s) full).2 (ih _).1
        · rw [lastD_append, (processLines_chain parse (chunkLines s) full).2]
          exact (ih _).2
    | failure ab m =>
      exact ⟨rfl, rfl⟩

/-- C5: within one stream, the successive published values of the answer text
form a prefix chain starting from the empty string (monotonic growth, no
mid-stream reset), and the submission-time state update is the only reset of
`currentResponse` to the empty string. -/
theorem C5_monotonic_answer :
    ∀ (parse : List Char → Option String) (events : List ReadEvent),
      prefixChain (publishedResponses parse events "") = true
      ∧ ∀ (st : AskState) (q : String), (loadingState st q).currentResponse = "" := by
  intro parse events
  refine ⟨?_, fun st q => rfl⟩
  have h := processEvents_chain parse events ""
  unfold publishedResponses streamPubs streamFinal
  exact prefixChain_append _ _ _ _ h.1 h.2 (by simp [prefixChain, isPrefixStr_refl])

/-- C7: whatever way the read loop exits (source exhaustion, `[DONE]`
sentinel, cancellation or transport error), the cleanup path resets the
streaming flag, publishes the accumulated text as the final answer, and
persists it exactly when it is non-empty. -/
theorem C7_stream_cleanup :
    ∀ (parse : List Char → Option String) (events : List ReadEvent) (sessionId : Nat)
      (st : AskState),
      ((processStream parse events sessionId st).1).isStreaming = false
      ∧ ((processStream parse events sessionId st).1).currentResponse
          = streamFinal parse events
      ∧ Action.broadcastState (processStream parse events sessionId st).1
          ∈ (processStream parse events sessionId st).2
      ∧ streamPersisted parse events
          = (if streamFinal parse events = "" then none else some (streamFinal parse events))
      ∧ (Action.persistAssistant sessionId (streamFinal parse events)
            ∈ (processStream parse events sessionId st).2
          ↔ streamFinal parse events ≠ "") := by
  intro parse events sid st
  refine ⟨rfl, rfl, ?_, rfl, ?_⟩
  · simp [processStream]
  · by_cases h : streamFinal parse events = ""
    · cases hex : streamExit parse events with
      | sourceDone => simp [processStream, streamPersisted, h, hex]
      | sentinel => simp [processStream, streamPersisted, h, hex]
      | failed ab m => cases ab <;> simp [processStream, streamPersisted, h, hex]
    · simp [processStream, streamPersisted, h]

/-- C9: a `data:` frame whose payload does not parse is skipped silently:
decoding behaves exactly as if the frame were absent, so later frames are
still processed and the accumulated text is unchanged. -/
theorem C9_malformed_frame_skipped :
    ∀ (parse : List Char → Option String) (pre post : List (List Char)) (line : List Char)
      (full : String),
      "data: ".data.isPrefixOf line = true →
      line.drop 6 ≠ "[DONE]".data →
      parse (line.drop 6) = none →
      processLines parse (pre ++ line :: post) full = processLines parse (pre ++ post) full := by
  intro parse pre post line
  induction pre with
  | nil =>
    intro full h1 h2 h3
    simp only [List.nil_append, processLines, h1, if_true, h3]
    rw [if_neg h2]
  | cons a t ih =>
    intro full h1 h2 h3
    simp only [List.cons_append, processLines, List.append_eq]
    split
    · split
      · rfl
      · split
        · exact ih full h1 h2 h3
        · split
          · rw [ih _ h1 h2 h3]
          · exact ih full h1 h2 h3
    · exact ih full h1 h2 h3

/-- C9 witness: a concrete malformed frame between two well-formed frames. -/
theorem C9_malformed_frame_skipped_witness :
    processLines wParse (["data: j1".data] ++ "data: bad".data :: ["data: j2".data]) ""
      = processLines wParse (["data: j1".data] ++ ["data: j2".data]) "" :=
  C9_malformed_frame_skipped wParse ["data: j1".data] ["data: j2".data] "data: bad".data ""
    (by decide) (by decide) (by decide)

/-- C1: when the first provider call fails with an error classified as a
multimodal rejection and the payload carried at least one screenshot, exactly
one retry is made, with the same system prompt and user text and no images;
a failure of that retry, and any failure not classified as multimodal, is
surfaced as the terminal error with no further attempt. -/
theorem C1_multimodal_fallback :
    ∀ (svc : ServiceState) (q : String) (hist : Option (List String)) (env : SendEnv),
      env.modelOk = true →
      ((∀ e, env.open1 = OpenResult.err e → isMultimodalError e = true →
          (payloadFor q hist env).images ≠ [] →
          (sendMessage svc q hist env).attempts
              = [payloadFor q hist env, { payloadFor q hist env with images := [] }]
          ∧ ∀ e2, env.open2 = OpenResult.err e2 →
              (sendMessage svc q hist env).result = SendResult.failure e2)
       ∧ (∀ e, env.open1 = OpenResult.err e → isMultimodalError e = false →
          (sendMessage svc q hist env).attempts = [payloadFor q hist env]
          ∧ (sendMessage svc q hist env).result = SendResult.failure e)) := by
  intro svc q hist env hmodel
  constructor
  · intro e hopen hmm himg
    have hss : (screenshotsToAnalyze env).length > 0 := by
      rcases hq : screenshotsToAnalyze env with _ | ⟨s, t⟩
      · exact absurd (by simp [payloadFor, hq]) himg
      · simp
    have hcond : (decide ((screenshotsToAnalyze env).length > 0) && isMultimodalError e)
        = true := by simp [hss, hmm]
    constructor
    · cases ho2 : env.open2 with
      | ok events =>
        cases hw : env.askWin2 <;>
          simp [sendMessage, sendMessageRest, hmodel, hopen, hcond, ho2, hw, streamPath,
            catchExit]
      | err e2 =>
        simp [sendMessage, sendMessageRest, hmodel, hopen, hcond, ho2, catchExit]
    · intro e2 ho2
      simp [sendMessage, sendMessageRest, hmodel, hopen, hcond, ho2, catchExit]
  · intro e hopen hmm
    have hcond : (decide ((screenshotsToAnalyze env).length > 0) && isMultimodalError e)
        = false := by simp [hmm]
    constructor <;> simp [sendMessage, sendMessageRest, hmodel, hopen, hcond, catchExit]

/-- C1 witness: one queued screenshot, both calls rejected with vision
errors; the run makes exactly the two recorded attempts and surfaces the
retry failure. -/
theorem C1_multimodal_fallback_witness :
    (sendMessage wSvc "q" none wEnv).attempts
        = [payloadFor "q" none wEnv, { payloadFor "q" none wEnv with images := [] }]
    ∧ (sendMessage wSvc "q" none wEnv).result = SendResult.failure "vision again" := by
  have h := (C1_multimodal_fallback wSvc "q" none wEnv rfl).1 "vision unsupported" rfl
    (by decide) (by decide)
  exact ⟨h.1, h.2 "vision again" rfl⟩

/-- C2 counterexample: at a concrete submission superseding a streaming
request, the broadcast of the new `loading = true` state occurs at trace
index 1 while the abort of the previous controller occurs at index 2, so the
previous stream is not cancelled before the new loading state is published,
contradicting the claim as stated. -/
theorem C2_counterexample :
    wSvc.state.isStreaming = true
    ∧ wSvc.hasAbortController = true
    ∧ ¬ ((sendMessage wSvc "q" none wEnv).trace.findIdx isAbortAct
          < (sendMessage wSvc "q" none wEnv).trace.findIdx isLoadingBroadcast) := by
  refine ⟨rfl, rfl, ?_⟩
  decide

/-- C2 (amended): the previous request's controller is aborted immediately
after the new `loading = true` state is published and before any stream is
opened, so the tokens of two streams still cannot interleave. -/
theorem C2_cancel_after_publish :
    ∀ (svc : ServiceState) (q : String) (hist : Option (List String)) (env : SendEnv),
      svc.hasAbortController = true →
      (sendMessage svc q hist env).trace.take 3
          = [Action.emitVisibility "ask" true,
             Action.broadcastState (loadingState svc.state q),
             Action.abortPrev "New request received."]
      ∧ (loadingState svc.state q).isLoading = true
      ∧ ∀ p : Payload, Action.openStream p ∉ (sendMessage svc q hist env).trace.take 3 := by
  intro svc q hist env h
  have htr : (sendMessage svc q hist env).trace
      = Action.emitVisibility "ask" true
        :: Action.broadcastState (loadingState svc.state q)
        :: Action.abortPrev "New request received."
        :: (sendMessageRest (loadingState svc.state q) q hist env).1 := by
    simp [sendMessage, h]
  refine ⟨by rw [htr]; rfl, rfl, ?_⟩
  intro p
  rw [htr]
  intro hmem
  simp [List.take] at hmem

/-- C2 amended-claim witness at the concrete superseding submission. -/
theorem C2_cancel_after_publish_witness :
    (sendMessage wSvc "q" none wEnv).trace.take 3
        = [Action.emitVisibility "ask" true,
           Action.broadcastState (loadingState wSvc.state "q"),
           Action.abortPrev "New request received."]
    ∧ Action.openStream (payloadFor "q" none wEnv)
        ∉ (sendMessage wSvc "q" none wEnv).trace.take 3 :=
  ⟨(C2_cancel_after_publish wSvc "q" none wEnv rfl).1,
   (C2_cancel_after_publish wSvc "q" none wEnv rfl).2.2 _⟩

/-- C8: while a request is loading or streaming, the toggle entry point
returns immediately: the state is unchanged in every field and no action is
taken (no submission, no cancellation, no broadcast). -/
theorem C8_toggle_dropped_while_busy :
    ∀ (st : AskState) (inputScreenOnly : Bool) (env : ToggleEnv),
      st.isLoading = true ∨ st.isStreaming = true →
      toggleAskButton st inputScreenOnly env = (st, []) := by
  intro st flag env h
  rcases h with h | h <;> simp [toggleAskButton, h]

/-- C8 witness: the toggle call during streaming is a no-op. -/
theorem C8_toggle_dropped_while_busy_witness :
    toggleAskButton { initialAskState with isStreaming := true } true ⟨true, true⟩
      = ({ initialAskState with isStreaming := true }, []) :=
  C8_toggle_dropped_while_busy _ true ⟨true, true⟩ (Or.inr rfl)

end Glass
